import Mathlib

/-!
Shallow embedding of `slack/web/classes/actions.py`: interactive message
elements (Action, Button, LinkButton, ActionConfirmation and the
MessageDropdown hierarchy) and their `get_json` serialization.

Python dictionaries are embedded as association lists with string keys; a
key assignment `json[k] = v` is `setKey`, `dict.update` is `updateAssoc`.
Python exceptions are embedded with `Except PyError`: the module raises
`SlackObjectFormationError` (here `PyError.formation`), and the dynamic
runtime errors the constructors can hit (`TypeError` from `list(None)`,
`AttributeError` from reading an unassigned attribute) get their own
constructors so that the error kind raised at each point is visible.

The collaborator module `objects.py` (JsonObject, ButtonStyle,
DynamicTypes, Option, OptionGroup, OptionType) is not part of the sources;
the definitions that stand in for it are modelled from the specification
and marked as such in their doc comments.
-/

namespace SlackActions

/-- JSON values as produced by this module: strings, integers, arrays and
nested objects, plus an explicit `null` so that absence of null-valued
bindings is a meaningful statement. -/
inductive JsonVal where
  | null : JsonVal
  | str : String → JsonVal
  | int : Int → JsonVal
  | arr : List JsonVal → JsonVal
  | obj : List (String × JsonVal) → JsonVal

/-- A Python dict with string keys, embedded as an association list kept in
insertion order. -/
abbrev JsonMap := List (String × JsonVal)

/-- First-match lookup in an association list (the value a Python dict
holds under key `k`, `none` when the key is absent). -/
def lookupKey : JsonMap → String → Option JsonVal
  | [], _ => none
  | p :: rest, k => if p.1 = k then some p.2 else lookupKey rest k

/-- `json[k] = v` on a dict: overwrite the binding when the key is present,
append it otherwise. -/
def setKey : JsonMap → String → JsonVal → JsonMap
  | [], k, v => [(k, v)]
  | p :: rest, k, v => if p.1 = k then (k, v) :: rest else p :: setKey rest k v

/-- `dict.update(other)`: fold `setKey` over the entries of `other`. -/
def updateAssoc (m : JsonMap) (other : JsonMap) : JsonMap :=
  other.foldl (fun acc p => setKey acc p.1 p.2) m

/-- The errors this module can raise: `formation` is
`SlackObjectFormationError`; `typeError` and `attributeError` embed the
Python runtime errors the constructors can hit. -/
inductive PyError where
  | formation : String → PyError
  | typeError : String → PyError
  | attributeError : String → PyError
deriving DecidableEq

/-- Modelled from the spec: `JsonObject.get_non_null_keys` from the absent
`objects.py`. Given the declared attributes as ordered (name, value) pairs,
with `none` for an attribute that is unset or bound to `None`, it returns
the mapping of exactly the non-null ones, keyed by attribute name. The
Python attribute set is unordered; a fixed enumeration order is chosen at
each call site. -/
def getNonNullKeys (attrs : List (String × Option JsonVal)) : JsonMap :=
  attrs.filterMap (fun p => p.2.map (fun v => (p.1, v)))

/-- Modelled from the spec: the member values of the `ButtonStyle` enum in
the absent `objects.py` ("Button styles: primary, danger"). -/
def ButtonStyle.values : List String := ["primary", "danger"]

/-- Modelled from the spec: `ButtonStyle.contains`, the enum membership
check from the absent `objects.py`. -/
def ButtonStyle.contains (s : String) : Bool := ButtonStyle.values.contains s

/-- Modelled from the spec: `ButtonStyle.pretty_print`, "a formatting
function listing valid members" from the absent `objects.py`. -/
def ButtonStyle.pretty_print : String := String.intercalate ", " ButtonStyle.values

/-- Modelled from the spec: the member values of the `DynamicTypes` enum in
the absent `objects.py` ("a fixed small set of platform-defined tokens
(e.g. channel/user/conversation lists)"). -/
def DynamicTypes.values : List String := ["users", "channels", "conversations"]

/-- Modelled from the spec: `DynamicTypes.contains`, the enum membership
check from the absent `objects.py`. -/
def DynamicTypes.contains (s : String) : Bool := DynamicTypes.values.contains s

/-- Modelled from the spec: `DynamicTypes.pretty_print`, listing the valid
members, from the absent `objects.py`. -/
def DynamicTypes.pretty_print : String := String.intercalate ", " DynamicTypes.values

/-- Modelled from the spec: `get_raw_value` from the absent `objects.py`
unwraps enum members to their primitive representation; styles and source
tokens are embedded directly as strings, so it is the identity. -/
def get_raw_value (s : Option String) : Option String := s

/-- Modelled from the spec: the rendering context parameter of
`Option.get_json` in the absent `objects.py` (`OptionType.DIALOG` or
`OptionType.INTERACTIVE_MESSAGE`). -/
inductive OptionType where
  | dialog : OptionType
  | interactive_message : OptionType

/-- Modelled from the spec: an opaque `Option`/`OptionGroup` value object
from the absent `objects.py`, carrying its serialization in each of the two
rendering contexts. -/
structure SlackOption where
  dialogJson : JsonVal
  interactiveJson : JsonVal

/-- Modelled from the spec: `Option.get_json(option_type)` returns the
serialization for the requested rendering context. -/
def SlackOption.get_json (o : SlackOption) (t : OptionType) : JsonVal :=
  match t with
  | OptionType.dialog => o.dialogJson
  | OptionType.interactive_message => o.interactiveJson

/-- Instance state of `Action` (`actions.py`): `__init__` stores `name`,
`url`, `text` and `type`. `text` and `type` are required parameters, but
only `type` is always a literal supplied by the subclasses; `text` is
caller-supplied and Python does not prevent `None`, so it is optional here. -/
structure Action where
  name : Option String
  url : Option String
  text : Option String
  type : String

/-- `Action.attributes = {"name", "text", "type", "url"}` paired with the
instance values, in a fixed enumeration order. -/
def Action.attrs (a : Action) : List (String × Option JsonVal) :=
  [("name", a.name.map JsonVal.str),
   ("text", a.text.map JsonVal.str),
   ("type", some (JsonVal.str a.type)),
   ("url", a.url.map JsonVal.str)]

/-- `Action.get_json`: raise `SlackObjectFormationError("Action must have a
name")` when both `name` and `url` are `None`, else return the non-null
keys of the attribute set. -/
def Action.get_json (a : Action) : Except PyError JsonMap :=
  if a.name = none ∧ a.url = none then
    Except.error (PyError.formation "Action must have a name")
  else
    Except.ok (getNonNullKeys a.attrs)

/-- Instance state of `ActionConfirmation`: `text`, `title`, `ok_text`,
`dismiss_text` as stored by `__init__`. -/
structure ActionConfirmation where
  text : Option String
  title : Option String
  ok_text : Option String
  dismiss_text : Option String

/-- `ActionConfirmation.__init__(text, title=None, ok_text="Okay",
dismiss_text="Cancel")` with every parameter supplied explicitly. -/
def ActionConfirmation.make (text : String) (title : Option String)
    (ok_text dismiss_text : String) : ActionConfirmation :=
  ⟨some text, title, some ok_text, some dismiss_text⟩

/-- `ActionConfirmation(text)` with `title`, `ok_text` and `dismiss_text`
left at their declared defaults `None`, `"Okay"`, `"Cancel"`. -/
def ActionConfirmation.makeDefault (text : String) : ActionConfirmation :=
  ActionConfirmation.make text none "Okay" "Cancel"

/-- `ActionConfirmation.attributes = {"title", "text", "ok_text",
"dismiss_text"}` paired with the instance values. -/
def ActionConfirmation.attrs (c : ActionConfirmation) : List (String × Option JsonVal) :=
  [("title", c.title.map JsonVal.str),
   ("text", c.text.map JsonVal.str),
   ("ok_text", c.ok_text.map JsonVal.str),
   ("dismiss_text", c.dismiss_text.map JsonVal.str)]

/-- `ActionConfirmation.get_json`: the non-null keys of the attribute set;
no validation, never raises. -/
def ActionConfirmation.get_json (c : ActionConfirmation) : JsonMap :=
  getNonNullKeys c.attrs

/-- Instance state of `Button`: the `Action` fields with `url` fixed to
`None` by `Button.__init__` (it calls `super().__init__(name, text,
type="button")` without a url), plus `value`, `confirm` and `style`. -/
structure Button where
  name : Option String
  text : Option String
  value : Option String
  confirm : Option ActionConfirmation
  style : Option String

/-- `Button.__init__(name, text, value, confirm=None, style=None)`; the
style is passed through `get_raw_value`. -/
def Button.make (name text value : String) (confirm : Option ActionConfirmation)
    (style : Option String) : Button :=
  ⟨some name, some text, some value, confirm, get_raw_value style⟩

/-- The `Action` part of a `Button` instance: `url = None`,
`type = "button"`. -/
def Button.toAction (b : Button) : Action :=
  ⟨b.name, none, b.text, "button"⟩

/-- `Button.get_json`: reject a set style outside `ButtonStyle`, then take
the base `Action` mapping, merge in non-null `value`/`style`, and add the
confirmation's own mapping under `"confirm"` when one is attached. -/
def Button.get_json (b : Button) : Except PyError JsonMap :=
  if b.style.any (fun s => ! ButtonStyle.contains s) then
    Except.error (PyError.formation
      ("style attribute must be one of the following values: " ++ ButtonStyle.pretty_print))
  else
    match (Button.toAction b).get_json with
    | Except.error e => Except.error e
    | Except.ok json =>
      let json := updateAssoc json
        (getNonNullKeys [("value", b.value.map JsonVal.str), ("style", b.style.map JsonVal.str)])
      match b.confirm with
      | some c => Except.ok (setKey json "confirm" (JsonVal.obj c.get_json))
      | none => Except.ok json

/-- `LinkButton.__init__(text, url)`: an `Action` with `name = None` and
`type = "button"`; no overridden serialization. -/
def LinkButton.make (text url : String) : Action :=
  ⟨none, some url, some text, "button"⟩

/-- Instance state shared by the `MessageDropdown` hierarchy: `name`,
`url = None`, `text`, `type = "select"` from `Action.__init__`, plus
`options` (a materialized list, or `None` on the static path) and
`selected_option` from `MessageDropdown.__init__`. The class-level
`data_source` and `property_key` are passed explicitly to the functions
below, one fixed pair per concrete variant. -/
structure MessageDropdownState where
  name : Option String
  text : Option String
  type : String
  options : Option (List SlackOption)
  selected_option : Option SlackOption

/-- `MessageDropdown.__init__(name, text, options=None,
selected_option=None)`: after the `Action` base init, materialize
`list(options)` when `data_source != "static"` (raising the Python
`TypeError` when `options` is `None`), else leave `options` as `None`. -/
def MessageDropdown.init (data_source : String) (name text : Option String)
    (options : Option (List SlackOption)) (selected_option : Option SlackOption) :
    Except PyError MessageDropdownState :=
  if data_source ≠ "static" then
    match options with
    | none => Except.error (PyError.typeError "NoneType object is not iterable")
    | some os => Except.ok ⟨name, text, "select", some os, selected_option⟩
  else
    Except.ok ⟨name, text, "select", none, selected_option⟩

/-- `MessageDropdown.attributes = {"name", "text", "value", "type"}` paired
with the instance values. No dropdown ever assigns a `value` attribute, so
`get_non_null_keys` always finds `"value"` unset and skips it. -/
def MessageDropdown.attrs (st : MessageDropdownState) : List (String × Option JsonVal) :=
  [("name", st.name.map JsonVal.str),
   ("text", st.text.map JsonVal.str),
   ("value", none),
   ("type", some (JsonVal.str st.type))]

/-- `MessageDropdown.get_json`: non-null keys of the attribute set; when
`data_source != "static"`, require `0 < len(options) <= 100` (raising
`SlackObjectFormationError("Invalid number of options")` otherwise) and
emit each option's dialog-context serialization under `property_key`;
finally set `json["data_source"]`. -/
def MessageDropdown.get_json (data_source property_key : String)
    (st : MessageDropdownState) : Except PyError JsonMap :=
  let json := getNonNullKeys (MessageDropdown.attrs st)
  if data_source ≠ "static" then
    match st.options with
    | none => Except.error (PyError.typeError "object of type NoneType has no len")
    | some os =>
      if ¬ (0 < os.length ∧ os.length ≤ 100) then
        Except.error (PyError.formation "Invalid number of options")
      else
        Except.ok (setKey
          (setKey json property_key
            (JsonVal.arr (os.map (fun o => o.get_json OptionType.dialog))))
          "data_source" (JsonVal.str data_source))
  else
    Except.ok (setKey json "data_source" (JsonVal.str data_source))

/-- `OptionsMessageDropdown.__init__`: forwards to the base constructor
with the class constants `data_source = "static"`,
`property_key = "options"`. -/
def OptionsMessageDropdown.init (name text : String) (options : List SlackOption)
    (selected_option : Option SlackOption) : Except PyError MessageDropdownState :=
  MessageDropdown.init "static" (some name) (some text) (some options) selected_option

/-- `OptionsMessageDropdown.get_json`: inherited base `get_json` with this
variant's class constants. -/
def OptionsMessageDropdown.get_json (st : MessageDropdownState) : Except PyError JsonMap :=
  MessageDropdown.get_json "static" "options" st

/-- `OptionGroupMessageDropdown.__init__`: forwards to the base constructor
with `data_source = "static"`, `property_key = "options_group"`. -/
def OptionGroupMessageDropdown.init (name text : String) (options : List SlackOption)
    (selected_option : Option SlackOption) : Except PyError MessageDropdownState :=
  MessageDropdown.init "static" (some name) (some text) (some options) selected_option

/-- `OptionGroupMessageDropdown.get_json`: inherited base `get_json` with
this variant's class constants. -/
def OptionGroupMessageDropdown.get_json (st : MessageDropdownState) : Except PyError JsonMap :=
  MessageDropdown.get_json "static" "options_group" st

/-- Instance state of `DynamicMessageDropdown`: the base state plus the
`_source` attribute. -/
structure DynamicMessageDropdownState where
  base : MessageDropdownState
  source : String

/-- `DynamicMessageDropdown.__init__(name, text, source, **kwargs)` as the
code executes it: `super().__init__` runs before `self._source` is
assigned, and inside it the line `if self.data_source != "static"`
evaluates the overriding `data_source` property, which returns
`self._source` — an attribute that does not exist yet. Every construction
therefore raises `AttributeError`, whatever the arguments. -/
def DynamicMessageDropdown.init (name text source : String)
    (options : Option (List SlackOption)) (selected_option : Option SlackOption) :
    Except PyError DynamicMessageDropdownState :=
  Except.error (PyError.attributeError
    "DynamicMessageDropdown object has no attribute _source")

/-- `DynamicMessageDropdown.get_json`, the method as written on the class
(reachable only if an instance existed): reject a `_source` outside
`DynamicTypes` with a formation error listing the allowed values, then
delegate to the base `get_json` with `property_key = "options"` and
`data_source` resolving to `_source`. -/
def DynamicMessageDropdown.get_json (st : DynamicMessageDropdownState) :
    Except PyError JsonMap :=
  if ! DynamicTypes.contains st.source then
    Except.error (PyError.formation
      ("source attribute must be one of the following values: " ++ DynamicTypes.pretty_print))
  else
    MessageDropdown.get_json st.source "options" st.base

/-- Instance state of `ExternalMessageDropdown`: the base state (its
`selected_option` field is overwritten by this subclass constructor) plus
`min_query_length`. -/
structure ExternalMessageDropdownState where
  base : MessageDropdownState
  min_query_length : Option Int

/-- `ExternalMessageDropdown.__init__(name, label, selected_option=None,
min_query_length=None, **kwargs)`: base init with the class constant
`data_source = "external"` (so `options`, arriving only through kwargs, is
materialized with `list(...)`), then `self.selected_option` and
`self.min_query_length` are assigned. -/
def ExternalMessageDropdown.init (name label : String)
    (selected_option : Option SlackOption) (min_query_length : Option Int)
    (options : Option (List SlackOption)) :
    Except PyError ExternalMessageDropdownState :=
  match MessageDropdown.init "external" (some name) (some label) options none with
  | Except.error e => Except.error e
  | Except.ok base => Except.ok ⟨{ base with selected_option := selected_option }, min_query_length⟩

/-- `ExternalMessageDropdown.get_json`: base `get_json` with
`data_source = "external"`, `property_key = "options"`; merge in non-null
`min_query_length`; when `selected_option` is set, assign
`json["selected_option"]` to the one-element list of its
interactive-message-context serialization. -/
def ExternalMessageDropdown.get_json (st : ExternalMessageDropdownState) :
    Except PyError JsonMap :=
  match MessageDropdown.get_json "external" "options" st.base with
  | Except.error e => Except.error e
  | Except.ok json =>
    let json := updateAssoc json
      (getNonNullKeys [("min_query_length", st.min_query_length.map JsonVal.int)])
    match st.base.selected_option with
    | some o =>
      Except.ok (setKey json "selected_option"
        (JsonVal.arr [o.get_json OptionType.interactive_message]))
    | none => Except.ok json

/-! ### Association-list lemmas shared by the claim proofs -/

theorem lookupKey_setKey_self (m : JsonMap) (k : String) (v : JsonVal) :
    lookupKey (setKey m k v) k = some v := by
  induction m with
  | nil => simp [setKey, lookupKey]
  | cons p rest ih =>
    by_cases h : p.1 = k
    · simp [setKey, h, lookupKey]
    · simp [setKey, h, lookupKey, ih]

theorem lookupKey_setKey_ne (m : JsonMap) (k k2 : String) (v : JsonVal) (h : k ≠ k2) :
    lookupKey (setKey m k v) k2 = lookupKey m k2 := by
  induction m with
  | nil => simp [setKey, lookupKey, h]
  | cons p rest ih =>
    by_cases hp : p.1 = k
    · simp [setKey, hp, lookupKey, h]
    · simp [setKey, hp, lookupKey, ih]

theorem mem_setKey (m : JsonMap) (k : String) (v : JsonVal) (p : String × JsonVal)
    (hm : p ∈ setKey m k v) : p = (k, v) ∨ p ∈ m := by
  induction m with
  | nil => simpa [setKey] using hm
  | cons q rest ih =>
    by_cases hq : q.1 = k
    · simp only [setKey, hq, if_pos rfl] at hm
      rcases List.mem_cons.mp hm with h | h
      · exact Or.inl h
      · exact Or.inr (List.mem_cons_of_mem _ h)
    · simp only [setKey, hq, if_neg hq] at hm
      rcases List.mem_cons.mp hm with h | h
      · exact Or.inr (h ▸ List.mem_cons_self _ _)
      · rcases ih h with h2 | h2
        · exact Or.inl h2
        · exact Or.inr (List.mem_cons_of_mem _ h2)

theorem mem_getNonNullKeys (attrs : List (String × Option JsonVal)) (p : String × JsonVal) :
    p ∈ getNonNullKeys attrs ↔ (p.1, some p.2) ∈ attrs := by
  constructor
  · intro h
    rcases List.mem_filterMap.mp h with ⟨a, ha, hfa⟩
    rcases Option.map_eq_some'.mp hfa with ⟨v, hv, hpv⟩
    have h1 : a.1 = p.1 := congrArg Prod.fst hpv
    have h2 : v = p.2 := congrArg Prod.snd hpv
    have : a = (p.1, some p.2) := by
      rcases a with ⟨a1, a2⟩
      simp only at h1 hv
      rw [h1] at *
      rw [hv, h2]
    exact this ▸ ha
  · intro h
    exact List.mem_filterMap.mpr ⟨(p.1, some p.2), h, rfl⟩

theorem lookupKey_getNonNullKeys_of_not_mem (attrs : List (String × Option JsonVal))
    (k : String) (h : ∀ p ∈ attrs, p.1 ≠ k) :
    lookupKey (getNonNullKeys attrs) k = none := by
  induction attrs with
  | nil => simp [getNonNullKeys, lookupKey]
  | cons a rest ih =>
    have hk : a.1 ≠ k := h a (List.mem_cons_self _ _)
    have hrest : ∀ p ∈ rest, p.1 ≠ k := fun p hp => h p (List.mem_cons_of_mem _ hp)
    rcases ha : a.2 with _ | v
    · simpa [getNonNullKeys, ha] using ih hrest
    · simpa [getNonNullKeys, ha, lookupKey, hk] using ih hrest

/-- A concrete option value used in concrete instantiations: it serializes
to the string `"od"` in dialog context and `"oi"` in interactive-message
context. -/
def sampleOption : SlackOption := ⟨JsonVal.str "od", JsonVal.str "oi"⟩

/-- C1: `Action.get_json` raises the formation error exactly when both
`name` and `url` are `None`; when at least one is set it returns exactly
the mapping of the non-None attributes among name, text, type, url, keyed
by attribute name, and raises nothing. -/
theorem C1_action_get_json (a : Action) :
    (a.get_json = Except.error (PyError.formation "Action must have a name") ↔
      (a.name = none ∧ a.url = none)) ∧
    ((a.name ≠ none ∨ a.url ≠ none) →
      a.get_json = Except.ok (getNonNullKeys a.attrs)) ∧
    (∀ j, a.get_json = Except.ok j →
      lookupKey j "name" = a.name.map JsonVal.str ∧
      lookupKey j "text" = a.text.map JsonVal.str ∧
      lookupKey j "type" = some (JsonVal.str a.type) ∧
      lookupKey j "url" = a.url.map JsonVal.str ∧
      ∀ p ∈ j, p.1 = "name" ∨ p.1 = "text" ∨ p.1 = "type" ∨ p.1 = "url") := by
  rcases a with ⟨name, url, text, type⟩
  cases name <;> cases url <;> cases text <;>
    simp [Action.get_json, Action.attrs, getNonNullKeys, lookupKey] <;>
    tauto

/-- Witness for C1: a concrete action with `name` set serializes without
error and the theorem recovers its `name` binding. -/
theorem C1_action_get_json_witness :
    lookupKey [("name", JsonVal.str "go"), ("text", JsonVal.str "Click"),
      ("type", JsonVal.str "button")] "name" = some (JsonVal.str "go") := by
  have h := (C1_action_get_json ⟨some "go", none, some "Click", "button"⟩).2.2 _ rfl
  exact h.1

/-- C5: `Button.get_json` on a button whose style is set outside the
allowed style enum raises a formation error whose message lists the valid
style values (the enum members, primary and danger). -/
theorem C5_button_invalid_style (b : Button) (s : String)
    (hs : b.style = some s) (hmem : ButtonStyle.contains s = false) :
    b.get_json = Except.error (PyError.formation
      ("style attribute must be one of the following values: " ++ ButtonStyle.pretty_print)) ∧
    ButtonStyle.pretty_print = String.intercalate ", " ButtonStyle.values ∧
    ButtonStyle.values = ["primary", "danger"] := by
  refine ⟨?_, rfl, rfl⟩
  simp [Button.get_json, hs, Option.any, hmem]

/-- Witness for C5: a button with style "invalid" fails with the
formation error listing the valid styles. -/
theorem C5_button_invalid_style_witness :
    (Button.make "a" "b" "c" none (some "invalid")).get_json =
      Except.error (PyError.formation
        ("style attribute must be one of the following values: " ++ ButtonStyle.pretty_print)) :=
  (C5_button_invalid_style (Button.make "a" "b" "c" none (some "invalid"))
    "invalid" rfl (by decide)).1

/-- C7: a Button constructed with name "a", text "b", value "c", no style
and no confirm serializes to exactly the mapping with name "a", text "b",
type "button", value "c" and nothing else. -/
theorem C7_button_round_trip :
    (Button.make "a" "b" "c" none none).get_json =
      Except.ok [("name", JsonVal.str "a"), ("text", JsonVal.str "b"),
        ("type", JsonVal.str "button"), ("value", JsonVal.str "c")] := by
  rfl

/-- C9: an ActionConfirmation constructed with only text "x" serializes
with the declared defaults ok_text "Okay" and dismiss_text "Cancel" and
with title omitted; in general `get_json` returns exactly the non-null
subset of title, text, ok_text, dismiss_text and never raises (it is a
total function into a mapping). -/
theorem C9_confirmation_defaults :
    (ActionConfirmation.makeDefault "x").get_json =
      [("text", JsonVal.str "x"), ("ok_text", JsonVal.str "Okay"),
       ("dismiss_text", JsonVal.str "Cancel")] ∧
    ∀ c : ActionConfirmation,
      lookupKey c.get_json "title" = c.title.map JsonVal.str ∧
      lookupKey c.get_json "text" = c.text.map JsonVal.str ∧
      lookupKey c.get_json "ok_text" = c.ok_text.map JsonVal.str ∧
      lookupKey c.get_json "dismiss_text" = c.dismiss_text.map JsonVal.str ∧
      ∀ p ∈ c.get_json,
        p.1 = "title" ∨ p.1 = "text" ∨ p.1 = "ok_text" ∨ p.1 = "dismiss_text" := by
  refine ⟨rfl, fun c => ?_⟩
  rcases c with ⟨t, ti, ok, di⟩
  cases t <;> cases ti <;> cases ok <;> cases di <;>
    simp [ActionConfirmation.get_json, ActionConfirmation.attrs, getNonNullKeys, lookupKey]

/-- Witness for C9: the default-constructed confirmation binds ok_text to
"Okay". -/
theorem C9_confirmation_defaults_witness :
    lookupKey (ActionConfirmation.makeDefault "x").get_json "ok_text" =
      some (JsonVal.str "Okay") := by
  have h := (C9_confirmation_defaults.2 (ActionConfirmation.makeDefault "x")).2.2.1
  simpa using h

/-- C2: for both static dropdown variants, whatever options are supplied at
construction, the mapping `get_json` returns contains neither an "options"
key nor an "options_group" key — the supplied options are never serialized
(and serialization itself always succeeds). -/
theorem C2_static_options_never_serialized (name text : String)
    (opts gopts : List SlackOption) (sel : Option SlackOption) :
    (∀ st j, OptionsMessageDropdown.init name text opts sel = Except.ok st →
      OptionsMessageDropdown.get_json st = Except.ok j →
      lookupKey j "options" = none ∧ lookupKey j "options_group" = none) ∧
    (∀ st, OptionsMessageDropdown.init name text opts sel = Except.ok st →
      ∃ j, OptionsMessageDropdown.get_json st = Except.ok j) ∧
    (∀ st j, OptionGroupMessageDropdown.init name text gopts sel = Except.ok st →
      OptionGroupMessageDropdown.get_json st = Except.ok j →
      lookupKey j "options" = none ∧ lookupKey j "options_group" = none) ∧
    (∀ st, OptionGroupMessageDropdown.init name text gopts sel = Except.ok st →
      ∃ j, OptionGroupMessageDropdown.get_json st = Except.ok j) := by
  have hinit : OptionsMessageDropdown.init name text opts sel =
      Except.ok (⟨some name, some text, "select", none, sel⟩ : MessageDropdownState) := rfl
  have hginit : OptionGroupMessageDropdown.init name text gopts sel =
      Except.ok (⟨some name, some text, "select", none, sel⟩ : MessageDropdownState) := rfl
  have hjson : OptionsMessageDropdown.get_json ⟨some name, some text, "select", none, sel⟩ =
      Except.ok [("name", JsonVal.str name), ("text", JsonVal.str text),
        ("type", JsonVal.str "select"), ("data_source", JsonVal.str "static")] := rfl
  have hgjson : OptionGroupMessageDropdown.get_json ⟨some name, some text, "select", none, sel⟩ =
      Except.ok [("name", JsonVal.str name), ("text", JsonVal.str text),
        ("type", JsonVal.str "select"), ("data_source", JsonVal.str "static")] := rfl
  refine ⟨fun st j hst hj => ?_, fun st hst => ?_, fun st j hst hj => ?_, fun st hst => ?_⟩
  · rw [hinit] at hst
    injection hst with hst
    subst hst
    rw [hjson] at hj
    injection hj with hj
    subst hj
    constructor <;> simp [lookupKey]
  · rw [hinit] at hst
    injection hst with hst
    subst hst
    exact ⟨_, hjson⟩
  · rw [hginit] at hst
    injection hst with hst
    subst hst
    rw [hgjson] at hj
    injection hj with hj
    subst hj
    constructor <;> simp [lookupKey]
  · rw [hginit] at hst
    injection hst with hst
    subst hst
    exact ⟨_, hgjson⟩

/-- Witness for C2: the concrete static dropdown with name "n", text "t"
and one option serializes to a mapping with no "options" and no
"options_group" binding. -/
theorem C2_static_options_never_serialized_witness :
    lookupKey [("name", JsonVal.str "n"), ("text", JsonVal.str "t"),
      ("type", JsonVal.str "select"), ("data_source", JsonVal.str "static")]
      "options" = none ∧
    lookupKey [("name", JsonVal.str "n"), ("text", JsonVal.str "t"),
      ("type", JsonVal.str "select"), ("data_source", JsonVal.str "static")]
      "options_group" = none := by
  have h := (C2_static_options_never_serialized "n" "t" [sampleOption] [sampleOption] none).1
    ⟨some "n", some "t", "select", none, none⟩
    [("name", JsonVal.str "n"), ("text", JsonVal.str "t"),
      ("type", JsonVal.str "select"), ("data_source", JsonVal.str "static")]
    rfl rfl
  exact h

/-- C4: for a non-static dropdown whose stored option list has length n,
the base `get_json` raises the formation error "Invalid number of options"
exactly when n = 0 or n > 100, and succeeds (producing the full mapping,
with no other validation) when 1 <= n <= 100. -/
theorem C4_nonstatic_option_count (ds pk : String) (st : MessageDropdownState)
    (os : List SlackOption) (hds : ds ≠ "static") (hos : st.options = some os) :
    (MessageDropdown.get_json ds pk st =
        Except.error (PyError.formation "Invalid number of options") ↔
      (os.length = 0 ∨ 100 < os.length)) ∧
    (0 < os.length → os.length ≤ 100 →
      MessageDropdown.get_json ds pk st = Except.ok (setKey
        (setKey (getNonNullKeys (MessageDropdown.attrs st)) pk
          (JsonVal.arr (os.map (fun o => o.get_json OptionType.dialog))))
        "data_source" (JsonVal.str ds))) := by
  by_cases h : 0 < os.length ∧ os.length ≤ 100
  · have hok : MessageDropdown.get_json ds pk st = Except.ok (setKey
        (setKey (getNonNullKeys (MessageDropdown.attrs st)) pk
          (JsonVal.arr (os.map (fun o => o.get_json OptionType.dialog))))
        "data_source" (JsonVal.str ds)) := by
      simp [MessageDropdown.get_json, hds, hos, h]
    refine ⟨?_, fun _ _ => hok⟩
    rw [hok]
    constructor
    · intro hc
      exact absurd hc (by simp)
    · intro hc
      exact absurd hc (by omega)
  · have herr : MessageDropdown.get_json ds pk st =
        Except.error (PyError.formation "Invalid number of options") := by
      simp [MessageDropdown.get_json, hds, hos, h]
    refine ⟨?_, fun h1 h2 => absurd (And.intro h1 h2) h⟩
    rw [herr]
    simp only [true_iff]
    omega

/-- Witness for C4: a non-static dropdown with an empty stored option list
fails with "Invalid number of options". -/
theorem C4_nonstatic_option_count_witness :
    MessageDropdown.get_json "external" "options"
      ⟨some "n", some "t", "select", some [], none⟩ =
      Except.error (PyError.formation "Invalid number of options") := by
  have h := (C4_nonstatic_option_count "external" "options"
    ⟨some "n", some "t", "select", some [], none⟩ [] (by decide) rfl).1
  exact h.mpr (Or.inl rfl)

/-- C6: an external dropdown with `selected_option` set serializes it under
the key "selected_option" as the one-element list of its
interactive-message-context serialization, distinct from and not
overwriting the "options" key (which carries the dialog-context
serializations of the stored options); the "min_query_length" binding is
present exactly when `min_query_length` is set. -/
theorem C6_external_selected_option (st : MessageDropdownState) (mql : Option Int)
    (os : List SlackOption) (o : SlackOption)
    (hos : st.options = some os) (hlen1 : 0 < os.length) (hlen2 : os.length ≤ 100)
    (hsel : st.selected_option = some o) :
    (∃ j, ExternalMessageDropdown.get_json ⟨st, mql⟩ = Except.ok j) ∧
    ∀ j, ExternalMessageDropdown.get_json ⟨st, mql⟩ = Except.ok j →
      lookupKey j "selected_option" =
        some (JsonVal.arr [o.get_json OptionType.interactive_message]) ∧
      lookupKey j "options" =
        some (JsonVal.arr (os.map (fun x => x.get_json OptionType.dialog))) ∧
      lookupKey j "min_query_length" = mql.map JsonVal.int := by
  have hattr : ∀ p ∈ MessageDropdown.attrs st, p.1 ≠ "min_query_length" := by
    simp [MessageDropdown.attrs]
  have hbase : MessageDropdown.get_json "external" "options" st = Except.ok
      (setKey (setKey (getNonNullKeys (MessageDropdown.attrs st)) "options"
        (JsonVal.arr (os.map (fun x => x.get_json OptionType.dialog))))
        "data_source" (JsonVal.str "external")) := by
    simp [MessageDropdown.get_json, hos, hlen1, hlen2]
  have hok : ExternalMessageDropdown.get_json ⟨st, mql⟩ = Except.ok
      (setKey (updateAssoc
        (setKey (setKey (getNonNullKeys (MessageDropdown.attrs st)) "options"
          (JsonVal.arr (os.map (fun x => x.get_json OptionType.dialog))))
          "data_source" (JsonVal.str "external"))
        (getNonNullKeys [("min_query_length", mql.map JsonVal.int)]))
        "selected_option" (JsonVal.arr [o.get_json OptionType.interactive_message])) := by
    simp [ExternalMessageDropdown.get_json, hbase, hsel]
  refine ⟨⟨_, hok⟩, fun j hj => ?_⟩
  rw [hok] at hj
  injection hj with hj
  subst hj
  refine ⟨lookupKey_setKey_self _ _ _, ?_, ?_⟩
  · rw [lookupKey_setKey_ne _ _ _ _ (by decide)]
    cases mql with
    | none =>
      simp only [Option.map_none', getNonNullKeys, List.filterMap, updateAssoc, List.foldl]
      rw [lookupKey_setKey_ne _ _ _ _ (by decide), lookupKey_setKey_self]
    | some v =>
      simp only [Option.map_some', getNonNullKeys, List.filterMap, updateAssoc, List.foldl]
      rw [lookupKey_setKey_ne _ _ _ _ (by decide), lookupKey_setKey_ne _ _ _ _ (by decide),
        lookupKey_setKey_self]
  · rw [lookupKey_setKey_ne _ _ _ _ (by decide)]
    cases mql with
    | none =>
      simp only [Option.map_none', getNonNullKeys, List.filterMap, updateAssoc, List.foldl]
      rw [lookupKey_setKey_ne _ _ _ _ (by decide), lookupKey_setKey_ne _ _ _ _ (by decide)]
      exact lookupKey_getNonNullKeys_of_not_mem _ _ hattr
    | some v =>
      simp only [Option.map_some', getNonNullKeys, List.filterMap, updateAssoc, List.foldl]
      rw [lookupKey_setKey_self]

/-- Witness for C6: a concrete external dropdown with one option, a
selected option and min_query_length 2; the theorem recovers the
"selected_option" binding on the concretely computed mapping. -/
theorem C6_external_selected_option_witness :
    lookupKey [("name", JsonVal.str "n"), ("text", JsonVal.str "t"),
      ("type", JsonVal.str "select"), ("options", JsonVal.arr [JsonVal.str "od"]),
      ("data_source", JsonVal.str "external"), ("min_query_length", JsonVal.int 2),
      ("selected_option", JsonVal.arr [JsonVal.str "oi"])] "selected_option" =
      some (JsonVal.arr [JsonVal.str "oi"]) := by
  have h := (C6_external_selected_option
    ⟨some "n", some "t", "select", some [sampleOption], some sampleOption⟩
    (some 2) [sampleOption] sampleOption rfl (by decide) (by decide) rfl).2 _ rfl
  exact h.1

/-- C3 (code bug): the claim says construction with an out-of-enum source
succeeds and only `get_json` fails; in the code every
DynamicMessageDropdown construction — whatever the source and options —
raises AttributeError, because `__init__` assigns `_source` only after
`super().__init__` has already read the overriding `data_source` property.
The serialization-time check itself (second conjunct, on the method body)
would reject the out-of-enum source with the claimed formation error
naming the allowed values. -/
theorem C3_dynamic_dropdown_construction :
    DynamicMessageDropdown.init "n" "t" "bad_source" (some [sampleOption]) none =
      Except.error (PyError.attributeError
        "DynamicMessageDropdown object has no attribute _source") ∧
    DynamicMessageDropdown.get_json
        ⟨⟨some "n", some "t", "select", some [sampleOption], none⟩, "bad_source"⟩ =
      Except.error (PyError.formation
        ("source attribute must be one of the following values: " ++ DynamicTypes.pretty_print)) :=
  ⟨rfl, rfl⟩

/-- C8 counterexample: the claim as stated is false — this button has
`name` set, yet `get_json` raises a formation error because its style
"invalid" is outside the style enum. -/
theorem C8_button_succeeds_counterexample :
    (Button.make "a" "b" "c" none (some "invalid")).name = some "a" ∧
    (Button.make "a" "b" "c" none (some "invalid")).get_json =
      Except.error (PyError.formation
        ("style attribute must be one of the following values: " ++ ButtonStyle.pretty_print)) :=
  ⟨rfl, rfl⟩

/-- C8 (amended): for every Button with `name` set whose style is unset or
a member of the style enum, `get_json` succeeds, and the returned mapping
omits every unset optional field entirely — no key is ever bound to a null
value, `url` (always unset on a Button) is absent, and unset style,
confirm, value and text produce no binding. -/
theorem C8_button_no_null_fields (b : Button) (hname : b.name ≠ none)
    (hstyle : ∀ s, b.style = some s → ButtonStyle.contains s = true) :
    (∃ j, b.get_json = Except.ok j) ∧
    ∀ j, b.get_json = Except.ok j →
      (∀ p ∈ j, p.2 ≠ JsonVal.null) ∧
      lookupKey j "url" = none ∧
      (b.style = none → lookupKey j "style" = none) ∧
      (b.confirm = none → lookupKey j "confirm" = none) ∧
      (b.value = none → lookupKey j "value" = none) ∧
      (b.text = none → lookupKey j "text" = none) := by
  rcases b with ⟨name, text, value, confirm, style⟩
  rcases name with _ | n
  · exact absurd rfl hname
  have hsty : style = none ∨ ∃ s, style = some s ∧ ButtonStyle.contains s = true := by
    cases style with
    | none => exact Or.inl rfl
    | some s => exact Or.inr ⟨s, rfl, hstyle s rfl⟩
  rcases hsty with rfl | ⟨s, rfl, hs⟩
  · cases text <;> cases value <;> cases confirm <;>
      · simp [Button.get_json, Button.toAction, Action.get_json, Action.attrs, Option.any,
          getNonNullKeys, updateAssoc, setKey, lookupKey, ActionConfirmation.get_json]
        aesop
  · cases text <;> cases value <;> cases confirm <;>
      · simp [Button.get_json, Button.toAction, Action.get_json, Action.attrs, Option.any, hs,
          getNonNullKeys, updateAssoc, setKey, lookupKey, ActionConfirmation.get_json]
        aesop

/-- Witness for C8 (amended): the round-trip button has no "style" binding
since its style is unset. -/
theorem C8_button_no_null_fields_witness :
    lookupKey [("name", JsonVal.str "a"), ("text", JsonVal.str "b"),
      ("type", JsonVal.str "button"), ("value", JsonVal.str "c")] "style" = none := by
  have h := (C8_button_no_null_fields (Button.make "a" "b" "c" none none)
    (by simp [Button.make, get_raw_value])
    (by intro s h; simp [Button.make, get_raw_value] at h)).2 _ rfl
  exact h.2.2.1 rfl

/-- C10 counterexample: the claim attributes the construction-time failure
of every non-static variant to the materialization of `list(options)`; for
DynamicMessageDropdown the construction-time error is an AttributeError
raised before the options handling is reached, not that TypeError. -/
theorem C10_options_required_counterexample :
    DynamicMessageDropdown.init "n" "t" "users" none none ≠
      Except.error (PyError.typeError "NoneType object is not iterable") ∧
    DynamicMessageDropdown.init "n" "t" "users" none none =
      Except.error (PyError.attributeError
        "DynamicMessageDropdown object has no attribute _source") := by
  refine ⟨?_, rfl⟩
  simp [DynamicMessageDropdown.init]

/-- C10 (amended): constructing either non-static variant without an
options argument raises at construction time — ExternalMessageDropdown
with the TypeError from materializing `list(None)` (so options is
effectively required despite its optional signature), while
DynamicMessageDropdown raises an AttributeError at construction whatever
its arguments, before the options materialization is reached. -/
theorem C10_nonstatic_options_required :
    (∀ name label sel mql, ExternalMessageDropdown.init name label sel mql none =
      Except.error (PyError.typeError "NoneType object is not iterable")) ∧
    (∀ name text source opts sel, DynamicMessageDropdown.init name text source opts sel =
      Except.error (PyError.attributeError
        "DynamicMessageDropdown object has no attribute _source")) :=
  ⟨fun _ _ _ _ => rfl, fun _ _ _ _ _ => rfl⟩

end SlackActions
